import Mathlib

/-!
Verification of the buffering / flush / retry engine of the atom-javascript
SDK against its natural-language specification.

Two accumulation variants exist in the repository and are embedded
separately:

* variant A: `src/atom-sdk/src/tracker.class.js` (`Tracker.prototype.track`,
  `Tracker.prototype.flush`, the inner `_send` retry routine and
  `_byteCount`);
* variant B: `src/dist/sdk.js` (`Tracker.prototype.track`,
  `Tracker.prototype.flush` and its inner `send`).

State is embedded with explicit state passing: the JavaScript object
`this.accumulated` (stream name -> array of records) becomes an association
list preserving key insertion order, exactly as JavaScript objects preserve
string-key insertion order.  A thrown exception becomes an error value
returned before any further mutation; mutations performed before a throw are
kept in the returned state.
-/

set_option autoImplicit false

deriving instance DecidableEq for Except

namespace Atom

/-! ### The Buffer Table

`this.accumulated` is a JavaScript object mapping stream names to arrays.
We embed it as an association list: property insertion order is observable
(the `for (var stream in self.accumulated)` loop of `flush` iterates in it),
and assignment to an existing key keeps its position. -/

/-- A JavaScript-object-like table from stream names to values, keeping key
insertion order. -/
abbrev Table (α : Type) : Type := List (String × α)

/-- Property read `t[s]`: `some v` when the key is present, `none`
(JavaScript `undefined`) otherwise. -/
def Table.lookup? {α : Type} : Table α → String → Option α
  | [], _ => none
  | (k, v) :: rest, s => if k = s then some v else Table.lookup? rest s

/-- Property write `t[s] = v`: overwrite in place when the key is present
(keeping its position), otherwise append the new key last, as JavaScript
objects do. -/
def Table.set {α : Type} : Table α → String → α → Table α
  | [], s, v => [(s, v)]
  | (k, w) :: rest, s, v =>
    if k = s then (k, v) :: rest else (k, w) :: Table.set rest s v

/-- The key list of a table, in insertion order (`for ... in` order). -/
def Table.keys {α : Type} (t : Table α) : List String :=
  t.map Prod.fst

/-- The lazy queue creation of both `track` variants
(`if (!(stream in self.accumulated)) self.accumulated[stream] = []`):
tables whose values are lists gain an empty queue for an absent key. -/
def tInit {β : Type} (t : Table (List β)) (s : String) : Table (List β) :=
  if (Table.lookup? t s).isSome then t else t ++ [(s, [])]

/-! ### Variant A: `src/atom-sdk/src/tracker.class.js` -/

/-- The synchronous failures `track` and `flush` can raise in
`tracker.class.js`:
* `invalidArgs` — `throw new Error('Stream name and data are required parameters')`;
* `typeError` — a JavaScript `TypeError` from reading `.length` of `undefined`;
* `serializationError` — `throw new Error("Invalid Data - can't be stringified")`. -/
inductive JsError : Type where
  | invalidArgs
  | typeError
  | serializationError
deriving Repr, DecidableEq

/-- The `data` argument of `Tracker.prototype.track`: `undefined`, a string
(primitive or `String` object — both take the push-unchanged branch), or any
other value, carrying its `.length` property (`none` when the property is
`undefined`, e.g. for plain objects and numbers) and the result of
`JSON.stringify` on it (`none` when stringification throws). -/
inductive JSVal : Type where
  | undef
  | str (s : String)
  | other (len : Option Nat) (stringified : Option String)
deriving Repr, DecidableEq

/-- The property read `data.length`: reading `.length` of `undefined` throws
a `TypeError`; a string's `length` is its character count; any other value
yields its `len` field. -/
def jsLength : JSVal → Except JsError (Option Nat)
  | JSVal.undef => Except.error JsError.typeError
  | JSVal.str s => Except.ok (some s.length)
  | JSVal.other l _ => Except.ok l

/-- The text that `track` accumulates for a value: a string passes through
unchanged, any other value is its `JSON.stringify` serialization
(`none` when stringification is impossible). -/
def serA : JSVal → Option String
  | JSVal.undef => none
  | JSVal.str s => some s
  | JSVal.other _ j => j

/-- `_byteCount` of `tracker.class.js`:
`encodeURI(string).split(/%..|./).length - 1` counts the UTF-8 bytes of the
argument after JavaScript's string coercion; the argument is the accumulated
array, which coerces to its elements joined by commas. -/
def _byteCount (queue : List String) : Nat :=
  (String.intercalate "," queue).utf8ByteSize

/-- The `Tracker` configuration fields consulted by `track`/`flush`
(`this.params.bulkLen` and `this.params.bulkSize`, both in final units). -/
structure ParamsA : Type where
  bulkLen : Nat
  bulkSize : Nat
deriving Repr, DecidableEq

/-- Constructor defaulting of `tracker.class.js`
(`params.bulkLen ? params.bulkLen : 3`,
`params.bulkSize ? params.bulkSize * 1024 : 10 * 1024`); `none` models an
absent option and `some 0` the falsy `0`. -/
def mkParamsA (bulkLen? bulkSize? : Option Nat) : ParamsA :=
  { bulkLen := match bulkLen? with
      | some n => if n = 0 then 3 else n
      | none => 3
    bulkSize := match bulkSize? with
      | some n => if n = 0 then 10 * 1024 else n * 1024
      | none => 10 * 1024 }

/-- `this.retryTimeout = 1000` — the initial backoff of a flush. -/
def initialRetryTimeout : Nat := 1000

/-- The retry ceiling `20 * 60 * 1000` of `_send` (20 minutes). -/
def retryCeiling : Nat := 20 * 60 * 1000

/-- Outcome of a `flush` call: the Buffer Table after the call returns, and
the `putEvents` sends initiated, in initiation order, each carrying the
detached batch handed to the transport. -/
structure FlushResultA : Type where
  table : Table (List String)
  sends : List (String × List String)
deriving Repr, DecidableEq

/-- Modelled from the spec: the repository's `taskMap` helper is not under
`src/`; per the spec, the no-argument flush "flushes every stream with >= 1
accumulated record, each as an independent send" and aggregates the results.
We model `taskMap` as running the queued tasks synchronously in order.  Each
task is an `_send(stream, self.accumulated[stream], timeout, taskCb, true)`
whose first run detaches the queue (`self.accumulated[sendStream] = []`).
The task list is built from the streams with a non-empty queue, in key
order; running one task only clears its own stream, so with the distinct
keys of a JavaScript object the sequential fold below is exact. -/
def flushAllA : List String → Table (List String) →
    Table (List String) × List (String × List String)
  | [], t => (t, [])
  | s :: rest, t =>
    match Table.lookup? t s with
    | none => flushAllA rest t
    | some q =>
      if 1 ≤ q.length then
        let out := flushAllA rest (Table.set t s [])
        (out.1, (s, q) :: out.2)
      else flushAllA rest t

/-- `Tracker.prototype.flush` of `tracker.class.js`.  A truthy
`targetStream` flushes that stream only: `self.accumulated[targetStream]`
is read (throwing a `TypeError` when the stream was never tracked), and when
its length is >= 1 a single `_send` task runs, detaching the queue before
the asynchronous `putEvents` call.  A falsy `targetStream` (absent or the
empty string) flushes every non-empty stream. -/
def flushA (t : Table (List String)) (target : Option String) :
    Except JsError FlushResultA :=
  match target with
  | some s =>
    if s = "" then
      let out := flushAllA (Table.keys t) t
      Except.ok { table := out.1, sends := out.2 }
    else
      match Table.lookup? t s with
      | none => Except.error JsError.typeError
      | some q =>
        if 1 ≤ q.length then
          Except.ok { table := Table.set t s [], sends := [(s, q)] }
        else
          Except.ok { table := t, sends := [] }
  | none =>
    let out := flushAllA (Table.keys t) t
    Except.ok { table := out.1, sends := out.2 }

/-- Outcome of a `track` call: the Buffer Table afterwards, the sends the
call initiated, whether it invoked `flush`, and the error thrown (if any).
Mutations performed before a throw are kept in `table`. -/
structure TrackResultA : Type where
  table : Table (List String)
  sends : List (String × List String)
  flushed : Bool
  err : Option JsError
deriving Repr, DecidableEq

/-- The trigger-and-flush tail of `track`: after pushing, flush when
`self.accumulated[stream].length >= bulkLen` or
`_byteCount(self.accumulated[stream]) >= bulkSize`. -/
def pushAndTrigger (p : ParamsA) (t1 : Table (List String)) (s : String)
    (q' : List String) : TrackResultA :=
  let t2 := Table.set t1 s q'
  if p.bulkLen ≤ q'.length ∨ p.bulkSize ≤ _byteCount q' then
    match flushA t2 (some s) with
    | Except.ok fr => { table := fr.table, sends := fr.sends, flushed := true, err := none }
    | Except.error e => { table := t2, sends := [], flushed := true, err := some e }
  else
    { table := t2, sends := [], flushed := false, err := none }

/-- `Tracker.prototype.track` of `tracker.class.js`.  The guard
`stream === undefined || stream.length == 0 || data.length == 0 || data === undefined`
is evaluated left to right: a missing or empty stream throws the
invalid-arguments `Error`; with a valid stream, reading `data.length` of an
`undefined` data throws a `TypeError` before the final equality is reached;
`data.length == 0` (loose equality, false for an `undefined` length) throws
the invalid-arguments `Error`.  Then the stream's queue is created if
absent, the (serialized) record is pushed, and the triggers are checked. -/
def trackA (p : ParamsA) (t : Table (List String)) (stream : Option String)
    (data : JSVal) : TrackResultA :=
  match stream with
  | none => { table := t, sends := [], flushed := false, err := some JsError.invalidArgs }
  | some s =>
    if s.length = 0 then
      { table := t, sends := [], flushed := false, err := some JsError.invalidArgs }
    else
      match jsLength data with
      | Except.error e =>
        { table := t, sends := [], flushed := false, err := some e }
      | Except.ok l =>
        if l = some 0 then
          { table := t, sends := [], flushed := false, err := some JsError.invalidArgs }
        else
          let t1 := tInit t s
          let q := (Table.lookup? t1 s).getD []
          match data with
          | JSVal.undef =>
            { table := t1, sends := [], flushed := false, err := some JsError.typeError }
          | JSVal.str d => pushAndTrigger p t1 s (q ++ [d])
          | JSVal.other _ none =>
            { table := t1, sends := [], flushed := false, err := some JsError.serializationError }
          | JSVal.other _ (some j) => pushAndTrigger p t1 s (q ++ [j])

/-- A sequence of `track` calls to one stream: the final table, all sends
initiated along the way in order, and whether every call succeeded. -/
def trackManyA (p : ParamsA) (s : String) :
    Table (List String) → List JSVal →
    Table (List String) × List (String × List String) × Bool
  | t, [] => (t, [], true)
  | t, d :: ds =>
    let r := trackA p t (some s) d
    let rest := trackManyA p s r.table ds
    (rest.1, r.sends ++ rest.2.1, r.err.isNone && rest.2.2)

/-! ### The `_send` retry routine of `tracker.class.js`

`putEvents` is asynchronous; we embed one detached batch's life as a
recursion over the scripted list of transport responses, one response per
attempt.  `Math.floor(Math.random() * 1000)` is a draw in `{0, ..., 999}`,
supplied by the oracle `jit`, indexed by retry number. -/

/-- One transport response `(err, data, status)` as seen by the `putEvents`
callback. -/
structure Response : Type where
  err : Option String
  body : Option String
  status : Nat
deriving Repr, DecidableEq

/-- One `putEvents` attempt: the batch handed to the transport, the value of
`timeout` at that attempt, and the `setTimeout` delay waited before it
(0 for the attempt `flush` itself makes). -/
structure Attempt : Type where
  data : List String
  timeout : Nat
  delay : Nat
deriving Repr, DecidableEq

/-- One invocation of the flush completion callback `(err, data, status)`. -/
structure CbCall : Type where
  err : Option String
  body : Option String
  status : Nat
deriving Repr, DecidableEq

/-- The retry loop of `_send` (the part after the first-run detachment).
Each attempt consumes one scripted response: on `err != null && status >= 500`
with `timeout < 20 * 60 * 1000`, a retry is scheduled after the current
`timeout` and re-entered with `timeout * 2 + (Math.floor(Math.random() * 1000) + 100)`
and the same `sendData`; at or above the ceiling the callback gets the
terminal `('Timeout - No response from server', null, 408)`; any other
response is handed to the callback as is.  An exhausted response list leaves
the last attempt in flight with no callback. -/
def sendLoop (jit : Nat → Fin 1000) (sendData : List String) :
    Nat → Nat → Nat → List Response → List Attempt × List CbCall
  | _, timeout, delay, [] => ([{ data := sendData, timeout := timeout, delay := delay }], [])
  | k, timeout, delay, r :: rs =>
    if r.err.isSome ∧ 500 ≤ r.status then
      if timeout < retryCeiling then
        let next := timeout * 2 + ((jit k).val + 100)
        let rest := sendLoop jit sendData (k + 1) next timeout rs
        ({ data := sendData, timeout := timeout, delay := delay } :: rest.1, rest.2)
      else
        ([{ data := sendData, timeout := timeout, delay := delay }],
         [{ err := some "Timeout - No response from server", body := none, status := 408 }])
    else
      ([{ data := sendData, timeout := timeout, delay := delay }],
       [{ err := r.err, body := r.body, status := r.status }])

/-! ### Variant B: `src/dist/sdk.js`

The legacy build's `Tracker` differs in the points the claims quantify over
"every accumulation variant": its `track` rejects only `== undefined`
arguments (via the stored callback, not a throw), `JSON.parse`s the data
before pushing, and its single-stream `flush` hands the live queue to `send`
without clearing it.  We embed its `track` on string-or-undefined data,
which is the domain the counterexamples need; `JSON.parse` is embedded on
the literal fragment (null, booleans, unsigned integers without a leading
zero, and escape-free quoted strings), exact on that fragment and failing
outside it. -/

/-- A parsed JSON value in the fragment `jsonParseLite` covers. -/
inductive DJson : Type where
  | jnull
  | jbool (b : Bool)
  | jnum (n : Nat)
  | jstr (s : String)
deriving Repr, DecidableEq

/-- The numeric value of a digit list (most significant first). -/
def digitsVal (cs : List Char) : Nat :=
  cs.foldl (fun n c => n * 10 + (c.toNat - '0'.toNat)) 0

/-- `JSON.parse` on the unpadded literal fragment: `null`, `true`, `false`,
unsigned integers without a leading zero, and double-quoted strings free of
escapes and inner quotes; every other input fails (as the full parser does
on the inputs the theorems below use, e.g. the empty string). -/
def jsonParseLite (s : String) : Option DJson :=
  let cs := s.data
  if s = "null" then some DJson.jnull
  else if s = "true" then some (DJson.jbool true)
  else if s = "false" then some (DJson.jbool false)
  else if 2 ≤ cs.length ∧ cs.head? = some '"' ∧ cs.getLast? = some '"' ∧
      ((cs.drop 1).dropLast.all (fun c => c != '"' && c != '\\')) then
    some (DJson.jstr (String.mk ((cs.drop 1).dropLast)))
  else if cs ≠ [] ∧ cs.all Char.isDigit ∧ (cs.length = 1 ∨ cs.head? ≠ some '0') then
    some (DJson.jnum (digitsVal cs))
  else none

/-- An element of a dist-variant queue: `track` pushes `JSON.parse(data)`
when parsing succeeds — a JSON value, not necessarily text — and the raw
string otherwise. -/
inductive DElem : Type where
  | ofStr (s : String)
  | ofJson (j : DJson)
deriving Repr, DecidableEq

/-- `JSON.stringify` of one accumulated element (strings in the escape-free
fragment). -/
def stringifyElem : DElem → String
  | DElem.ofStr s => "\"" ++ s ++ "\""
  | DElem.ofJson DJson.jnull => "null"
  | DElem.ofJson (DJson.jbool true) => "true"
  | DElem.ofJson (DJson.jbool false) => "false"
  | DElem.ofJson (DJson.jnum n) => toString n
  | DElem.ofJson (DJson.jstr s) => "\"" ++ s ++ "\""

/-- `JSON.stringify` of an accumulated array. -/
def stringifyArr (q : List DElem) : String :=
  "[" ++ String.intercalate "," (q.map stringifyElem) ++ "]"

/-- The dist `Tracker` configuration (`bulkLen` default 20, `bulkSize`
default `5 * 1024`, in final units). -/
structure ParamsB : Type where
  bulkLen : Nat
  bulkSize : Nat
deriving Repr, DecidableEq

/-- Outcome of a dist `flush`: table afterwards and the `putEvents` sends
initiated in order. -/
structure FlushResultB : Type where
  table : Table (List DElem)
  sends : List (String × List DElem)
deriving Repr, DecidableEq

/-- The all-streams loop of the dist `flush`: for each key in order, a
non-empty queue is handed to `send` via `flush(key, accumulated[key])`, and
then — unconditionally — the entry is overwritten with a fresh empty
array. -/
def flushAllB : List String → Table (List DElem) →
    Table (List DElem) × List (String × List DElem)
  | [], t => (t, [])
  | s :: rest, t =>
    match Table.lookup? t s with
    | none => flushAllB rest t
    | some q =>
      let out := flushAllB rest (Table.set t s [])
      if 1 ≤ q.length then (out.1, (s, q) :: out.2) else (out.1, out.2)

/-- `Tracker.prototype.flush` of `dist/sdk.js`.  With truthy `batchStream`
and `batchData` (the send/retry path) the batch is handed to `send` and the
table is untouched.  With truthy `batchStream` alone (the path `track`'s
trigger takes) the live queue is handed to `send` when non-empty and the
entry is NOT cleared; reading an absent stream throws a `TypeError`.  With
falsy `batchStream` every stream is flushed and every entry is reset. -/
def flushB (t : Table (List DElem)) (batchStream : Option String)
    (batchData : Option (List DElem)) : Except JsError FlushResultB :=
  match batchStream with
  | some s =>
    if s = "" then
      let out := flushAllB (Table.keys t) t
      Except.ok { table := out.1, sends := out.2 }
    else
      match batchData with
      | some d => Except.ok { table := t, sends := [(s, d)] }
      | none =>
        match Table.lookup? t s with
        | none => Except.error JsError.typeError
        | some q =>
          if 1 ≤ q.length then Except.ok { table := t, sends := [(s, q)] }
          else Except.ok { table := t, sends := [] }
  | none =>
    let out := flushAllB (Table.keys t) t
    Except.ok { table := out.1, sends := out.2 }

/-- Outcome of a dist `track` call: the table afterwards, the sends
initiated, and the error string the stored callback received (if any);
dist `track` never throws. -/
structure TrackResultB : Type where
  table : Table (List DElem)
  sends : List (String × List DElem)
  err : Option String
deriving Repr, DecidableEq

/-- `Tracker.prototype.track` of `dist/sdk.js`, on string-or-undefined
stream and data.  Only `stream == undefined || data == undefined` is
rejected (through the callback); an empty string passes.  The data is
pushed as `JSON.parse(data)` when parsing succeeds and as the raw string
otherwise; then `flush(stream)` runs when
`accumulated[stream].length >= bulkLen` or
`JSON.stringify(accumulated[stream]).length * 2 >= bulkSize`. -/
def trackB (p : ParamsB) (t : Table (List DElem)) (stream data : Option String) :
    TrackResultB :=
  match stream, data with
  | none, _ => { table := t, sends := [], err := some "Stream or data is empty" }
  | _, none => { table := t, sends := [], err := some "Stream or data is empty" }
  | some s, some d =>
    let t1 := tInit t s
    let q := (Table.lookup? t1 s).getD []
    let e := match jsonParseLite d with
      | some j => DElem.ofJson j
      | none => DElem.ofStr d
    let q' := q ++ [e]
    let t2 := Table.set t1 s q'
    if p.bulkLen ≤ q'.length ∨ p.bulkSize ≤ (stringifyArr q').length * 2 then
      match flushB t2 (some s) none with
      | Except.ok fr => { table := fr.table, sends := fr.sends, err := none }
      | Except.error _ => { table := t2, sends := [], err := none }
    else
      { table := t2, sends := [], err := none }

/-! ### Helper lemmas about the Buffer Table -/

theorem Table.lookup?_set_self {α : Type} (t : Table α) (s : String) (v : α) :
    Table.lookup? (Table.set t s v) s = some v := by
  induction t with
  | nil => simp [Table.set, Table.lookup?]
  | cons e rest ih =>
    obtain ⟨k, w⟩ := e
    by_cases hk : k = s
    · simp [Table.set, Table.lookup?, hk]
    · simp [Table.set, Table.lookup?, hk, ih]

theorem Table.set_set {α : Type} (t : Table α) (s : String) (v w : α) :
    Table.set (Table.set t s v) s w = Table.set t s w := by
  induction t with
  | nil => simp [Table.set]
  | cons e rest ih =>
    obtain ⟨k, u⟩ := e
    by_cases hk : k = s
    · simp [Table.set, hk]
    · simp [Table.set, hk, ih]

theorem Table.lookup?_eq_none {α : Type} {t : Table α} {s : String} :
    Table.lookup? t s = none ↔ s ∉ Table.keys t := by
  induction t with
  | nil => simp [Table.lookup?, Table.keys]
  | cons e rest ih =>
    obtain ⟨k, w⟩ := e
    by_cases hk : k = s
    · subst hk
      simp [Table.lookup?, Table.keys]
    · simp only [Table.keys, List.map_cons, List.mem_cons, not_or,
        Table.lookup?, if_neg hk, ih, Table.keys]
      constructor
      · intro h
        exact ⟨fun hs => hk (Eq.symm hs), h⟩
      · intro h
        exact h.2

theorem Table.lookup?_append_right {α : Type} {pre : Table α} {s : String}
    (t : Table α) (h : s ∉ Table.keys pre) :
    Table.lookup? (pre ++ t) s = Table.lookup? t s := by
  induction pre with
  | nil => simp
  | cons e rest ih =>
    obtain ⟨k, w⟩ := e
    simp only [Table.keys, List.map_cons, List.mem_cons, not_or] at h
    have hk : k ≠ s := fun hks => h.1 (Eq.symm hks)
    simpa [Table.lookup?, hk] using ih (by simpa [Table.keys] using h.2)

theorem Table.set_append_right {α : Type} {pre : Table α} {s : String}
    (t : Table α) (v : α) (h : s ∉ Table.keys pre) :
    Table.set (pre ++ t) s v = pre ++ Table.set t s v := by
  induction pre with
  | nil => simp
  | cons e rest ih =>
    obtain ⟨k, w⟩ := e
    simp only [Table.keys, List.map_cons, List.mem_cons, not_or] at h
    have hk : k ≠ s := fun hks => h.1 (Eq.symm hks)
    simpa [Table.set, hk] using ih (by simpa [Table.keys] using h.2)

theorem tInit_lookup? {β : Type} (t : Table (List β)) (s : String) :
    Table.lookup? (tInit t s) s = some ((Table.lookup? t s).getD []) := by
  unfold tInit
  cases h : Table.lookup? t s with
  | some q => simp [h]
  | none =>
    have hnot : s ∉ Table.keys t := Table.lookup?_eq_none.mp h
    simp [h, Table.lookup?_append_right _ hnot, Table.lookup?]

/-! ### Helper lemmas about `flush` (variant A) -/

theorem flushAllA_go (t : Table (List String)) :
    ∀ pre : Table (List String), (Table.keys (pre ++ t)).Nodup →
    flushAllA (Table.keys t) (pre ++ t) =
      (pre ++ t.map (fun e => (e.1, ([] : List String))),
       t.filter (fun e => 1 ≤ e.2.length)) := by
  induction t with
  | nil =>
    intro pre h
    simp [flushAllA, Table.keys]
  | cons e rest ih =>
    intro pre h
    obtain ⟨s, q⟩ := e
    rw [show Table.keys (pre ++ (s, q) :: rest)
        = Table.keys pre ++ s :: Table.keys rest by simp [Table.keys]] at h
    have hspre : s ∉ Table.keys pre := by
      intro hsp
      exact (List.nodup_append.mp h).2.2 hsp (List.mem_cons_self s _)
    have hlook : Table.lookup? (pre ++ (s, q) :: rest) s = some q := by
      rw [Table.lookup?_append_right _ hspre]
      simp [Table.lookup?]
    rw [show Table.keys ((s, q) :: rest) = s :: Table.keys rest by simp [Table.keys]]
    by_cases hq : 1 ≤ q.length
    · have hset : Table.set (pre ++ (s, q) :: rest) s []
          = (pre ++ [(s, ([] : List String))]) ++ rest := by
        rw [Table.set_append_right _ _ hspre]
        simp [Table.set]
      have hnodup2 : (Table.keys ((pre ++ [(s, ([] : List String))]) ++ rest)).Nodup := by
        simpa [Table.keys, List.append_assoc] using h
      simp only [flushAllA, hlook, if_pos hq, hset, ih _ hnodup2]
      simp [List.append_assoc, List.filter_cons, hq]
    · have hq0 : q = [] := by
        cases q with
        | nil => rfl
        | cons x xs => exact absurd (Nat.succ_le_succ (Nat.zero_le _)) hq
      subst hq0
      have hsplit : pre ++ (s, ([] : List String)) :: rest
          = (pre ++ [(s, ([] : List String))]) ++ rest := by
        simp
      have hnodup2 : (Table.keys ((pre ++ [(s, ([] : List String))]) ++ rest)).Nodup := by
        simpa [Table.keys, List.append_assoc] using h
      simp only [flushAllA, hlook, if_neg hq]
      rw [hsplit, ih _ hnodup2]
      simp [List.append_assoc, List.filter_cons, hq]

theorem flushA_none_eq (t : Table (List String)) (h : (Table.keys t).Nodup) :
    flushA t none =
      Except.ok { table := t.map (fun e => (e.1, [])),
                  sends := t.filter (fun e => 1 ≤ e.2.length) } := by
  have hgo := flushAllA_go t [] (by simpa using h)
  simp only [List.nil_append] at hgo
  simp [flushA, hgo]

theorem flushA_single_nonempty (t : Table (List String)) (s : String)
    (q : List String) (hs : s ≠ "") (hq : Table.lookup? t s = some q)
    (hne : 1 ≤ q.length) :
    flushA t (some s) = Except.ok { table := Table.set t s [], sends := [(s, q)] } := by
  simp [flushA, hs, hq, hne]

theorem flushA_single_empty (t : Table (List String)) (s : String)
    (hs : s ≠ "") (hq : Table.lookup? t s = some []) :
    flushA t (some s) = Except.ok { table := t, sends := [] } := by
  simp [flushA, hs, hq]

theorem flushA_absent (t : Table (List String)) (s : String)
    (hs : s ≠ "") (hq : Table.lookup? t s = none) :
    flushA t (some s) = Except.error JsError.typeError := by
  simp [flushA, hs, hq]

/-! ### Helper lemmas about `track` (variant A) -/

theorem pushAndTrigger_pos (p : ParamsA) (t1 : Table (List String)) (s : String)
    (q' : List String) (hs : s ≠ "")
    (htrig : p.bulkLen ≤ q'.length ∨ p.bulkSize ≤ _byteCount q')
    (hne : 1 ≤ q'.length) :
    pushAndTrigger p t1 s q' =
      { table := Table.set t1 s [], sends := [(s, q')], flushed := true, err := none } := by
  have hflush := flushA_single_nonempty (Table.set t1 s q') s q' hs
    (Table.lookup?_set_self t1 s q') hne
  simp [pushAndTrigger, htrig, hflush, Table.set_set]

theorem pushAndTrigger_neg (p : ParamsA) (t1 : Table (List String)) (s : String)
    (q' : List String)
    (htrig : ¬ (p.bulkLen ≤ q'.length ∨ p.bulkSize ≤ _byteCount q')) :
    pushAndTrigger p t1 s q' =
      { table := Table.set t1 s q', sends := [], flushed := false, err := none } := by
  simp [pushAndTrigger, htrig]

theorem trackA_eq_push (p : ParamsA) (t : Table (List String)) (s : String)
    (d : JSVal) (v : String) (hs : ¬ s.length = 0) (hser : serA d = some v)
    (hnz : jsLength d ≠ Except.ok (some 0)) :
    trackA p t (some s) d =
      pushAndTrigger p (tInit t s) s (((Table.lookup? t s).getD []) ++ [v]) := by
  cases d with
  | undef => simp [serA] at hser
  | str s' =>
    have hv : s' = v := by simpa [serA] using hser
    subst hv
    have h0 : ¬ (s'.length = 0) := by
      simpa [jsLength] using hnz
    simp [trackA, hs, jsLength, h0, tInit_lookup?]
  | other l j =>
    simp only [serA] at hser
    subst hser
    have h0 : ¬ (l = some 0) := by
      simpa [jsLength] using hnz
    simp [trackA, hs, jsLength, h0, tInit_lookup?]

theorem trackA_err_none (p : ParamsA) (t : Table (List String)) (s : String)
    (d : JSVal) (h : (trackA p t (some s) d).err = none) :
    ¬ s.length = 0 ∧ ∃ v, serA d = some v ∧ jsLength d ≠ Except.ok (some 0) := by
  by_cases hs : s.length = 0
  · simp [trackA, hs] at h
  · refine ⟨hs, ?_⟩
    cases d with
    | undef => simp [trackA, hs, jsLength] at h
    | str s' =>
      by_cases h0 : s'.length = 0
      · simp [trackA, hs, jsLength, h0] at h
      · exact ⟨s', rfl, by simp [jsLength, h0]⟩
    | other l j =>
      by_cases h0 : l = some 0
      · simp [trackA, hs, jsLength, h0] at h
      · cases j with
        | none => simp [trackA, hs, jsLength, h0] at h
        | some v => exact ⟨v, rfl, by simp [jsLength, h0]⟩

theorem pushAndTrigger_batch (p : ParamsA) (t1 : Table (List String)) (s : String)
    (q' : List String) (hs : s ≠ "") (hne : 1 ≤ q'.length) :
    (((pushAndTrigger p t1 s q').sends.map Prod.snd).flatten)
        ++ ((Table.lookup? (pushAndTrigger p t1 s q').table s).getD []) = q' ∧
    (pushAndTrigger p t1 s q').err = none ∧
    ∀ b ∈ (pushAndTrigger p t1 s q').sends, b.1 = s := by
  by_cases htrig : p.bulkLen ≤ q'.length ∨ p.bulkSize ≤ _byteCount q'
  · rw [pushAndTrigger_pos p t1 s q' hs htrig hne]
    simp [Table.lookup?_set_self]
  · rw [pushAndTrigger_neg p t1 s q' htrig]
    simp [Table.lookup?_set_self]

/-! ### Helper lemmas about the `_send` retry loop -/

theorem sendLoop_data (jit : Nat → Fin 1000) (d : List String) :
    ∀ (rs : List Response) (k t δ : Nat) (a : Attempt),
      a ∈ (sendLoop jit d k t δ rs).1 → a.data = d := by
  intro rs
  induction rs with
  | nil =>
    intro k t δ a ha
    simp only [sendLoop, List.mem_singleton] at ha
    rw [ha]
  | cons r rest ih =>
    intro k t δ a ha
    simp only [sendLoop] at ha
    split at ha
    · split at ha
      · rcases List.mem_cons.mp ha with h1 | h2
        · rw [h1]
        · exact ih _ _ _ _ h2
      · rw [List.mem_singleton.mp ha]
    · rw [List.mem_singleton.mp ha]

theorem sendLoop_first (jit : Nat → Fin 1000) (d : List String)
    (k t δ : Nat) (rs : List Response) :
    ∃ tail, (sendLoop jit d k t δ rs).1
      = { data := d, timeout := t, delay := δ } :: tail := by
  cases rs with
  | nil => exact ⟨[], rfl⟩
  | cons r rest =>
    simp only [sendLoop]
    split
    · split
      · exact ⟨_, rfl⟩
      · exact ⟨[], rfl⟩
    · exact ⟨[], rfl⟩

/-! ### Claims C4, C5, C6: the retry / send routine -/

/-- Claim C4: when a send attempt completes with an error of status >= 500
and the current backoff is below the 20-minute ceiling, `_send` schedules a
retry after the current backoff delay; the retry's timeout equals double
the current one plus a random jitter in the range [100, 1100); and every
attempt, the retry included, carries exactly the originally detached batch
(the live queue is never re-read). -/
theorem c4_retry_backoff (jit : Nat → Fin 1000) (d : List String)
    (k t δ : Nat) (r : Response) (rs : List Response)
    (herr : r.err.isSome) (h5 : 500 ≤ r.status) (hc : t < retryCeiling) :
    (sendLoop jit d k t δ (r :: rs)).1
        = { data := d, timeout := t, delay := δ }
            :: (sendLoop jit d (k + 1) (t * 2 + ((jit k).val + 100)) t rs).1
    ∧ (sendLoop jit d k t δ (r :: rs)).1[1]?
        = some { data := d, timeout := t * 2 + ((jit k).val + 100), delay := t }
    ∧ 100 ≤ (jit k).val + 100 ∧ (jit k).val + 100 < 1100
    ∧ t < t * 2 + ((jit k).val + 100)
    ∧ ∀ a ∈ (sendLoop jit d k t δ (r :: rs)).1, a.data = d := by
  have hguard : (r.err.isSome = true) ∧ 500 ≤ r.status := ⟨herr, h5⟩
  have heq : sendLoop jit d k t δ (r :: rs)
      = ({ data := d, timeout := t, delay := δ }
           :: (sendLoop jit d (k + 1) (t * 2 + ((jit k).val + 100)) t rs).1,
         (sendLoop jit d (k + 1) (t * 2 + ((jit k).val + 100)) t rs).2) := by
    simp only [sendLoop, if_pos hguard, if_pos hc]
  obtain ⟨tail, htail⟩ :=
    sendLoop_first jit d (k + 1) (t * 2 + ((jit k).val + 100)) t rs
  have hjit : (jit k).val < 1000 := (jit k).isLt
  refine ⟨by rw [heq], ?_, by omega, by omega, by omega,
    fun a ha => sendLoop_data jit d _ _ _ _ a ha⟩
  rw [heq]
  simp [htail]

/-- Witness for C4 at a concrete transient failure. -/
theorem c4_retry_backoff_witness :
    ((some "Server Error" : Option String).isSome ∧ (500 : Nat) ≤ 503
        ∧ (1000 : Nat) < retryCeiling)
    ∧ ((sendLoop (fun _ => (7 : Fin 1000)) ["a"] 0 1000 0
          [{ err := some "Server Error", body := none, status := 503 }]).1
        = { data := ["a"], timeout := 1000, delay := 0 }
            :: (sendLoop (fun _ => (7 : Fin 1000)) ["a"] 1 (1000 * 2 + (7 + 100)) 1000 []).1
    ∧ (sendLoop (fun _ => (7 : Fin 1000)) ["a"] 0 1000 0
          [{ err := some "Server Error", body := none, status := 503 }]).1[1]?
        = some { data := ["a"], timeout := 1000 * 2 + (7 + 100), delay := 1000 }
    ∧ 100 ≤ 7 + 100 ∧ 7 + 100 < 1100
    ∧ 1000 < 1000 * 2 + (7 + 100)
    ∧ ∀ a ∈ (sendLoop (fun _ => (7 : Fin 1000)) ["a"] 0 1000 0
          [{ err := some "Server Error", body := none, status := 503 }]).1,
        a.data = ["a"]) :=
  ⟨⟨rfl, by decide, by decide⟩,
    c4_retry_backoff (fun _ => (7 : Fin 1000)) ["a"] 0 1000 0
      { err := some "Server Error", body := none, status := 503 } []
      rfl (by decide) (by decide)⟩

/-- Claim C5: when a send attempt fails with status >= 500 and the backoff
has reached the ceiling, the completion callback is invoked exactly once
with the terminal timeout error of status 408, and no further attempt is
made. -/
theorem c5_retry_exhausted (jit : Nat → Fin 1000) (d : List String)
    (k t δ : Nat) (r : Response) (rs : List Response)
    (herr : r.err.isSome) (h5 : 500 ≤ r.status) (hc : retryCeiling ≤ t) :
    sendLoop jit d k t δ (r :: rs)
      = ([{ data := d, timeout := t, delay := δ }],
         [{ err := some "Timeout - No response from server", body := none,
            status := 408 }]) := by
  have hguard : (r.err.isSome = true) ∧ 500 ≤ r.status := ⟨herr, h5⟩
  simp only [sendLoop, if_pos hguard, if_neg (Nat.not_lt.mpr hc)]

/-- Witness for C5 at a concrete exhausted backoff. -/
theorem c5_retry_exhausted_witness :
    ((some "Server Error" : Option String).isSome ∧ (500 : Nat) ≤ 500
        ∧ retryCeiling ≤ 1300000)
    ∧ sendLoop (fun _ => (0 : Fin 1000)) ["a"] 0 1300000 650000
        [{ err := some "Server Error", body := none, status := 500 }]
      = ([{ data := ["a"], timeout := 1300000, delay := 650000 }],
         [{ err := some "Timeout - No response from server", body := none,
            status := 408 }]) :=
  ⟨⟨rfl, by decide, by decide⟩,
    c5_retry_exhausted (fun _ => (0 : Fin 1000)) ["a"] 0 1300000 650000
      { err := some "Server Error", body := none, status := 500 } []
      rfl (by decide) (by decide)⟩

/-- Claim C6: when a send attempt completes with an error whose status is
below 500 (for example 401), the completion callback is invoked exactly
once with that error and status, and no retry is scheduled. -/
theorem c6_terminal_error (jit : Nat → Fin 1000) (d : List String)
    (k t δ : Nat) (r : Response) (rs : List Response)
    (herr : r.err.isSome) (hlt : r.status < 500) :
    sendLoop jit d k t δ (r :: rs)
      = ([{ data := d, timeout := t, delay := δ }],
         [{ err := r.err, body := r.body, status := r.status }]) := by
  have hguard : ¬ ((r.err.isSome = true) ∧ 500 ≤ r.status) := by
    intro h
    exact absurd h.2 (Nat.not_le.mpr hlt)
  simp only [sendLoop, if_neg hguard]

/-- Witness for C6 at a concrete 401 failure. -/
theorem c6_terminal_error_witness :
    ((some "Auth Error" : Option String).isSome ∧ (401 : Nat) < 500)
    ∧ sendLoop (fun _ => (0 : Fin 1000)) ["a"] 0 1000 0
        [{ err := some "Auth Error", body := none, status := 401 }]
      = ([{ data := ["a"], timeout := 1000, delay := 0 }],
         [{ err := some "Auth Error", body := none, status := 401 }]) :=
  ⟨⟨rfl, by decide⟩,
    c6_terminal_error (fun _ => (0 : Fin 1000)) ["a"] 0 1000 0
      { err := some "Auth Error", body := none, status := 401 } []
      rfl (by decide)⟩

/-! ### Claims C2, C3: the flush triggers of `track` -/

/-- Claim C2: the `track` call that makes a stream's queue length reach
`bulkLen` invokes `flush` for that stream synchronously and exactly once
(a single send, carrying the whole queue), and immediately afterwards the
Buffer Table entry for that stream is an empty queue. -/
theorem c2_count_trigger (p : ParamsA) (t : Table (List String)) (s : String)
    (q : List String) (d : JSVal) (v : String)
    (hs : ¬ s.length = 0) (hser : serA d = some v)
    (hnz : jsLength d ≠ Except.ok (some 0))
    (hq : (Table.lookup? t s).getD [] = q)
    (hlen : q.length + 1 = p.bulkLen) :
    (trackA p t (some s) d).flushed = true
    ∧ (trackA p t (some s) d).sends = [(s, q ++ [v])]
    ∧ Table.lookup? (trackA p t (some s) d).table s = some []
    ∧ (trackA p t (some s) d).err = none := by
  have hs' : s ≠ "" := fun h => hs (by rw [h]; rfl)
  rw [trackA_eq_push p t s d v hs hser hnz, hq]
  have htrig : p.bulkLen ≤ (q ++ [v]).length ∨ p.bulkSize ≤ _byteCount (q ++ [v]) := by
    left
    rw [← hlen]
    simp
  rw [pushAndTrigger_pos p (tInit t s) s (q ++ [v]) hs' htrig (by simp)]
  simp [Table.lookup?_set_self]

/-- Witness for C2: with `bulkLen = 3`, tracking `"c"` onto `["a", "b"]`
flushes `["a", "b", "c"]` and leaves the entry empty. -/
theorem c2_count_trigger_witness :
    (¬ ("s".length = 0)) ∧ serA (JSVal.str "c") = some "c"
    ∧ jsLength (JSVal.str "c") ≠ Except.ok (some 0)
    ∧ (Table.lookup? [("s", ["a", "b"])] "s").getD [] = ["a", "b"]
    ∧ (["a", "b"] : List String).length + 1 = (mkParamsA none none).bulkLen
    ∧ ((trackA (mkParamsA none none) [("s", ["a", "b"])] (some "s") (JSVal.str "c")).flushed = true
      ∧ (trackA (mkParamsA none none) [("s", ["a", "b"])] (some "s") (JSVal.str "c")).sends
          = [("s", ["a", "b"] ++ ["c"])]
      ∧ Table.lookup? (trackA (mkParamsA none none) [("s", ["a", "b"])] (some "s")
          (JSVal.str "c")).table "s" = some []
      ∧ (trackA (mkParamsA none none) [("s", ["a", "b"])] (some "s") (JSVal.str "c")).err
          = none) :=
  ⟨by decide, rfl, by decide, by decide, by decide,
    c2_count_trigger (mkParamsA none none) [("s", ["a", "b"])] "s" ["a", "b"]
      (JSVal.str "c") "c" (by decide) rfl (by decide) (by decide) (by decide)⟩

/-- Claim C3 (with the count trigger out of play: the queue stays below
`bulkLen` even after the append): a `track` call triggers a flush iff the
UTF-8 byte count of the serialized (comma-joined) queue after the append
is at least `bulkSize`; it fires on the call that crosses the threshold
and never before. -/
theorem c3_size_trigger (p : ParamsA) (t : Table (List String)) (s : String)
    (q : List String) (d : JSVal) (v : String)
    (hs : ¬ s.length = 0) (hser : serA d = some v)
    (hnz : jsLength d ≠ Except.ok (some 0))
    (hq : (Table.lookup? t s).getD [] = q)
    (hlen : q.length + 1 < p.bulkLen) :
    (trackA p t (some s) d).flushed = true ↔ p.bulkSize ≤ _byteCount (q ++ [v]) := by
  have hs' : s ≠ "" := fun h => hs (by rw [h]; rfl)
  rw [trackA_eq_push p t s d v hs hser hnz, hq]
  by_cases hb : p.bulkSize ≤ _byteCount (q ++ [v])
  · rw [pushAndTrigger_pos p (tInit t s) s (q ++ [v]) hs' (Or.inr hb) (by simp)]
    simpa using hb
  · have hnotlen : ¬ p.bulkLen ≤ (q ++ [v]).length := by
      simp only [List.length_append, List.length_cons, List.length_nil]
      omega
    rw [pushAndTrigger_neg p (tInit t s) s (q ++ [v]) (not_or.mpr ⟨hnotlen, hb⟩)]
    simp [hb]

/-- Witness for C3: with `bulkSize = 4`, appending `"cd"` to `["ab"]`
takes the serialized queue `"ab,cd"` to 5 bytes and fires the flush. -/
theorem c3_size_trigger_witness :
    (¬ ("s".length = 0)) ∧ serA (JSVal.str "cd") = some "cd"
    ∧ jsLength (JSVal.str "cd") ≠ Except.ok (some 0)
    ∧ (Table.lookup? [("s", ["ab"])] "s").getD [] = ["ab"]
    ∧ (["ab"] : List String).length + 1 < (100 : Nat)
    ∧ ((trackA { bulkLen := 100, bulkSize := 4 } [("s", ["ab"])] (some "s")
          (JSVal.str "cd")).flushed = true
        ↔ (4 : Nat) ≤ _byteCount (["ab"] ++ ["cd"])) :=
  ⟨by decide, rfl, by decide, by decide, by decide,
    c3_size_trigger { bulkLen := 100, bulkSize := 4 } [("s", ["ab"])] "s" ["ab"]
      (JSVal.str "cd") "cd" (by decide) rfl (by decide) (by decide) (by decide)⟩

/-! ### Claim C1: atomic detachment of the queue at flush -/

/-- Counterexample to claim C1 as stated ("in every accumulation variant"):
in the dist variant, a single-stream flush of the non-empty queue `["a"]`
initiates a send of that queue yet leaves the Buffer Table entry unchanged
— the entry is not replaced by a new empty queue, so later `track` pushes
mutate the in-flight batch. -/
theorem c1_counterexample :
    flushB [("s", [DElem.ofStr "a"])] (some "s") none
      = Except.ok { table := [("s", [DElem.ofStr "a"])],
                    sends := [("s", [DElem.ofStr "a"])] }
    ∧ Table.lookup? ([("s", [DElem.ofStr "a"])] : Table (List DElem)) "s" ≠ some [] :=
  ⟨rfl, by decide⟩

/-- Claim C1 (amended to the `tracker.class.js` variant): flushing a
non-empty stream replaces the Buffer Table entry with a new empty queue at
send initiation and hands exactly the pre-flush queue to the send; a later
valid `track` call (itself below the triggers) appends to the new queue and
initiates no send, leaving the detached batch a fixed value; and every
retry attempt re-sends the originally detached batch unchanged. -/
theorem c1_detach_atomic (p : ParamsA) (t : Table (List String)) (s : String)
    (q : List String) (hs : s ≠ "") (hq : Table.lookup? t s = some q)
    (hne : q ≠ []) :
    flushA t (some s) = Except.ok { table := Table.set t s [], sends := [(s, q)] }
    ∧ Table.lookup? (Table.set t s []) s = some []
    ∧ (∀ d : String, ¬ d.length = 0 →
        ¬ (p.bulkLen ≤ 1 ∨ p.bulkSize ≤ _byteCount [d]) →
        trackA p (Table.set t s []) (some s) (JSVal.str d)
          = { table := Table.set t s [d], sends := [], flushed := false, err := none })
    ∧ (∀ (jit : Nat → Fin 1000) (k t0 δ : Nat) (rs : List Response),
        ∀ a ∈ (sendLoop jit q k t0 δ rs).1, a.data = q) := by
  have hne' : 1 ≤ q.length := by
    cases q with
    | nil => exact absurd rfl hne
    | cons x xs => simp
  refine ⟨flushA_single_nonempty t s q hs hq hne', Table.lookup?_set_self t s [],
    ?_, fun jit k t0 δ rs a ha => sendLoop_data jit q rs k t0 δ a ha⟩
  intro d hd htrig
  have hs0 : ¬ s.length = 0 := fun h0 => hs (by
    cases s with
    | mk cs =>
      cases cs with
      | nil => rfl
      | cons c cs' => simp [String.length] at h0)
  rw [trackA_eq_push p (Table.set t s []) s (JSVal.str d) d hs0 rfl
    (by simp [jsLength, hd])]
  have hinit : tInit (Table.set t s []) s = Table.set t s [] := by
    simp [tInit, Table.lookup?_set_self]
  have hqd : (Table.lookup? (Table.set t s []) s).getD ([] : List String) = [] := by
    simp [Table.lookup?_set_self]
  rw [hinit, hqd]
  rw [pushAndTrigger_neg p (Table.set t s []) s ([] ++ [d]) (by simpa using htrig)]
  simp [Table.set_set]

/-- Witness for the amended C1 at a concrete non-empty queue. -/
theorem c1_detach_atomic_witness :
    (("s" : String) ≠ "" ∧ Table.lookup? [("s", ["a"])] "s" = some ["a"]
        ∧ (["a"] : List String) ≠ [])
    ∧ (flushA [("s", ["a"])] (some "s")
        = Except.ok { table := Table.set [("s", ["a"])] "s" [], sends := [("s", ["a"])] }
    ∧ Table.lookup? (Table.set [("s", ["a"])] "s" []) "s" = some []
    ∧ (∀ d : String, ¬ d.length = 0 →
        ¬ ((mkParamsA none none).bulkLen ≤ 1
            ∨ (mkParamsA none none).bulkSize ≤ _byteCount [d]) →
        trackA (mkParamsA none none) (Table.set [("s", ["a"])] "s" []) (some "s")
            (JSVal.str d)
          = { table := Table.set [("s", ["a"])] "s" [d], sends := [],
              flushed := false, err := none })
    ∧ (∀ (jit : Nat → Fin 1000) (k t0 δ : Nat) (rs : List Response),
        ∀ a ∈ (sendLoop jit ["a"] k t0 δ rs).1, a.data = ["a"])) :=
  ⟨⟨by decide, by decide, by decide⟩,
    c1_detach_atomic (mkParamsA none none) [("s", ["a"])] "s" ["a"]
      (by decide) (by decide) (by decide)⟩

/-! ### Claim C10: flushes of empty or absent queues -/

/-- Counterexample to claim C10 as stated: a single-stream flush of a
stream absent from the Buffer Table does not silently skip — reading
`.length` of the `undefined` entry throws a `TypeError`. -/
theorem c10_counterexample :
    flushA [] (some "s") = Except.error JsError.typeError := rfl

/-- Claim C10 (amended): a single-stream flush of a present-but-empty
queue performs no send and raises no error; the no-argument flush sends
exactly one batch per stream with at least one record, in table order, and
skips (but keeps) the empty ones; and a single-stream flush of an absent
stream throws a `TypeError`. -/
theorem c10_flush_skip (t t' : Table (List String)) (s s' : String)
    (hs : s ≠ "") (hs' : s' ≠ "") :
    (Table.lookup? t s = some [] →
        flushA t (some s) = Except.ok { table := t, sends := [] })
    ∧ ((Table.keys t).Nodup →
        flushA t none
          = Except.ok { table := t.map (fun e => (e.1, [])),
                        sends := t.filter (fun e => 1 ≤ e.2.length) })
    ∧ (Table.lookup? t' s' = none →
        flushA t' (some s') = Except.error JsError.typeError) :=
  ⟨fun h => flushA_single_empty t s hs h,
   fun h => flushA_none_eq t h,
   fun h => flushA_absent t' s' hs' h⟩

/-- Witness for the amended C10: two non-empty streams and one empty one
give exactly two sends; the empty stream is skipped without error; an
absent stream errors. -/
theorem c10_flush_skip_witness :
    (("c" : String) ≠ "" ∧ ("z" : String) ≠ ""
      ∧ Table.lookup? [("a", ["x"]), ("b", ["y"]), ("c", [])] "c" = some []
      ∧ (Table.keys ([("a", ["x"]), ("b", ["y"]), ("c", [])] :
          Table (List String))).Nodup
      ∧ Table.lookup? ([] : Table (List String)) "z" = none)
    ∧ flushA [("a", ["x"]), ("b", ["y"]), ("c", [])] (some "c")
        = Except.ok { table := [("a", ["x"]), ("b", ["y"]), ("c", [])], sends := [] }
    ∧ flushA [("a", ["x"]), ("b", ["y"]), ("c", [])] none
        = Except.ok
            { table := [("a", ["x"]), ("b", ["y"]), ("c", [])].map (fun e => (e.1, [])),
              sends := [("a", ["x"]), ("b", ["y"]), ("c", [])].filter
                (fun e => 1 ≤ e.2.length) }
    ∧ flushA [] (some "z") = Except.error JsError.typeError :=
  ⟨⟨by decide, by decide, by decide, by decide, rfl⟩,
    (c10_flush_skip [("a", ["x"]), ("b", ["y"]), ("c", [])] [] "c" "z"
      (by decide) (by decide)).1 (by decide),
    (c10_flush_skip [("a", ["x"]), ("b", ["y"]), ("c", [])] [] "c" "z"
      (by decide) (by decide)).2.1 (by decide),
    (c10_flush_skip [("a", ["x"]), ("b", ["y"]), ("c", [])] [] "c" "z"
      (by decide) (by decide)).2.2 rfl⟩

/-! ### Claim C7: rejection of empty or missing arguments -/

/-- Counterexample to claim C7 as stated ("in every accumulation
variant"): the dist variant's `track` only rejects `undefined`/`null`
arguments, so an empty-string data argument is silently accumulated — the
Buffer Table is mutated and no error is reported. -/
theorem c7_counterexample :
    trackB { bulkLen := 20, bulkSize := 5 * 1024 } [] (some "s") (some "")
      = { table := [("s", [DElem.ofStr ""])], sends := [], err := none }
    ∧ ([("s", [DElem.ofStr ""])] : Table (List DElem)) ≠ [] :=
  ⟨by decide, by decide⟩

/-- Claim C7 (amended): in `tracker.class.js`, a `track` call with a
missing stream, an empty stream, a missing data argument, or a data
argument whose `length` is 0 fails synchronously — with the
invalid-arguments `Error`, except that a missing data argument surfaces as
a `TypeError` — and the Buffer Table is untouched.  The dist variant
rejects only missing (`undefined`/`null`) stream or data, via its stored
callback, also leaving the table untouched. -/
theorem c7_invalid_args (p : ParamsA) (t : Table (List String)) (s : String)
    (d : JSVal) (pb : ParamsB) (tb : Table (List DElem)) (sb db : Option String) :
    trackA p t none d
      = { table := t, sends := [], flushed := false, err := some JsError.invalidArgs }
    ∧ trackA p t (some "") d
      = { table := t, sends := [], flushed := false, err := some JsError.invalidArgs }
    ∧ (¬ s.length = 0 →
        trackA p t (some s) JSVal.undef
          = { table := t, sends := [], flushed := false, err := some JsError.typeError })
    ∧ (¬ s.length = 0 → jsLength d = Except.ok (some 0) →
        trackA p t (some s) d
          = { table := t, sends := [], flushed := false, err := some JsError.invalidArgs })
    ∧ trackB pb tb none db
      = { table := tb, sends := [], err := some "Stream or data is empty" }
    ∧ trackB pb tb sb none
      = { table := tb, sends := [], err := some "Stream or data is empty" } := by
  refine ⟨rfl, rfl, ?_, ?_, ?_, ?_⟩
  · intro h
    simp [trackA, h, jsLength]
  · intro h h0
    simp [trackA, h, h0]
  · cases db with
    | none => rfl
    | some d0 => rfl
  · cases sb with
    | none => rfl
    | some s0 => rfl

/-- Witness for the amended C7 at concrete invalid calls. -/
theorem c7_invalid_args_witness :
    (¬ ("s".length = 0))
    ∧ jsLength (JSVal.other (some 0) (some "[]")) = Except.ok (some 0)
    ∧ trackA (mkParamsA none none) [] none (JSVal.str "x")
        = { table := [], sends := [], flushed := false, err := some JsError.invalidArgs }
    ∧ trackA (mkParamsA none none) [] (some "") (JSVal.str "x")
        = { table := [], sends := [], flushed := false, err := some JsError.invalidArgs }
    ∧ trackA (mkParamsA none none) [] (some "s") JSVal.undef
        = { table := [], sends := [], flushed := false, err := some JsError.typeError }
    ∧ trackA (mkParamsA none none) [] (some "s") (JSVal.other (some 0) (some "[]"))
        = { table := [], sends := [], flushed := false, err := some JsError.invalidArgs }
    ∧ trackB { bulkLen := 20, bulkSize := 5 * 1024 } [] none (some "x")
        = { table := [], sends := [], err := some "Stream or data is empty" }
    ∧ trackB { bulkLen := 20, bulkSize := 5 * 1024 } [] (some "s") none
        = { table := [], sends := [], err := some "Stream or data is empty" } :=
  ⟨by decide, rfl,
    (c7_invalid_args (mkParamsA none none) [] "s" (JSVal.str "x")
      { bulkLen := 20, bulkSize := 5 * 1024 } [] (some "s") (some "x")).1,
    (c7_invalid_args (mkParamsA none none) [] "s" (JSVal.str "x")
      { bulkLen := 20, bulkSize := 5 * 1024 } [] (some "s") (some "x")).2.1,
    (c7_invalid_args (mkParamsA none none) [] "s" (JSVal.str "x")
      { bulkLen := 20, bulkSize := 5 * 1024 } [] (some "s") (some "x")).2.2.1
      (by decide),
    (c7_invalid_args (mkParamsA none none) [] "s" (JSVal.other (some 0) (some "[]"))
      { bulkLen := 20, bulkSize := 5 * 1024 } [] (some "s") (some "x")).2.2.2.1
      (by decide) rfl,
    (c7_invalid_args (mkParamsA none none) [] "s" (JSVal.str "x")
      { bulkLen := 20, bulkSize := 5 * 1024 } [] (some "s") (some "x")).2.2.2.2.1,
    (c7_invalid_args (mkParamsA none none) [] "s" (JSVal.str "x")
      { bulkLen := 20, bulkSize := 5 * 1024 } [] (some "s") (some "x")).2.2.2.2.2⟩

/-! ### Claim C8: what is appended is text -/

/-- Counterexample to claim C8 as stated ("for every accumulation
variant"): the dist variant `JSON.parse`s its data first, so tracking the
string `"5"` appends the number 5 — not the string unchanged, and not
text. -/
theorem c8_counterexample :
    trackB { bulkLen := 20, bulkSize := 5 * 1024 } [] (some "s") (some "5")
      = { table := [("s", [DElem.ofJson (DJson.jnum 5)])], sends := [], err := none }
    ∧ DElem.ofJson (DJson.jnum 5) ≠ DElem.ofStr "5" :=
  ⟨by decide, by decide⟩

/-- Claim C8 (amended to `tracker.class.js`): the value a valid `track`
call appends is text — a string data argument is appended unchanged, a
non-string is appended as its `JSON.stringify` text, and when
stringification is impossible the call throws the serialization `Error`
synchronously with nothing appended to the queue and nothing sent. -/
theorem c8_serialize (p : ParamsA) (t : Table (List String)) (s : String)
    (hs : ¬ s.length = 0) :
    (∀ d : String, ¬ d.length = 0 →
        (trackA p t (some s) (JSVal.str d)).err = none
        ∧ (((trackA p t (some s) (JSVal.str d)).sends.map Prod.snd).flatten)
            ++ ((Table.lookup? (trackA p t (some s) (JSVal.str d)).table s).getD [])
          = ((Table.lookup? t s).getD []) ++ [d])
    ∧ (∀ (l : Option Nat) (j : String), l ≠ some 0 →
        (trackA p t (some s) (JSVal.other l (some j))).err = none
        ∧ (((trackA p t (some s) (JSVal.other l (some j))).sends.map Prod.snd).flatten)
            ++ ((Table.lookup? (trackA p t (some s) (JSVal.other l (some j))).table s).getD [])
          = ((Table.lookup? t s).getD []) ++ [j])
    ∧ (∀ l : Option Nat, l ≠ some 0 →
        trackA p t (some s) (JSVal.other l none)
          = { table := tInit t s, sends := [], flushed := false,
              err := some JsError.serializationError }) := by
  have hs' : s ≠ "" := fun h => hs (by rw [h]; rfl)
  refine ⟨?_, ?_, ?_⟩
  · intro d hd
    rw [trackA_eq_push p t s (JSVal.str d) d hs rfl (by simp [jsLength, hd])]
    obtain ⟨heq, herr2, _⟩ := pushAndTrigger_batch p (tInit t s) s
      (((Table.lookup? t s).getD []) ++ [d]) hs' (by simp)
    exact ⟨herr2, heq⟩
  · intro l j hl
    rw [trackA_eq_push p t s (JSVal.other l (some j)) j hs rfl
      (by simpa [jsLength] using hl)]
    obtain ⟨heq, herr2, _⟩ := pushAndTrigger_batch p (tInit t s) s
      (((Table.lookup? t s).getD []) ++ [j]) hs' (by simp)
    exact ⟨herr2, heq⟩
  · intro l hl
    simp [trackA, hs, jsLength, hl]

/-- Witness for the amended C8 on an empty table. -/
theorem c8_serialize_witness :
    (¬ ("s".length = 0))
    ∧ ((∀ d : String, ¬ d.length = 0 →
        (trackA (mkParamsA none none) [] (some "s") (JSVal.str d)).err = none
        ∧ (((trackA (mkParamsA none none) [] (some "s") (JSVal.str d)).sends.map
              Prod.snd).flatten)
            ++ ((Table.lookup? (trackA (mkParamsA none none) [] (some "s")
                  (JSVal.str d)).table "s").getD [])
          = ((Table.lookup? ([] : Table (List String)) "s").getD []) ++ [d])
    ∧ (∀ (l : Option Nat) (j : String), l ≠ some 0 →
        (trackA (mkParamsA none none) [] (some "s") (JSVal.other l (some j))).err = none
        ∧ (((trackA (mkParamsA none none) [] (some "s")
              (JSVal.other l (some j))).sends.map Prod.snd).flatten)
            ++ ((Table.lookup? (trackA (mkParamsA none none) [] (some "s")
                  (JSVal.other l (some j))).table "s").getD [])
          = ((Table.lookup? ([] : Table (List String)) "s").getD []) ++ [j])
    ∧ (∀ l : Option Nat, l ≠ some 0 →
        trackA (mkParamsA none none) [] (some "s") (JSVal.other l none)
          = { table := tInit [] "s", sends := [], flushed := false,
              err := some JsError.serializationError })) :=
  ⟨by decide, c8_serialize (mkParamsA none none) [] "s" (by decide)⟩

/-! ### Claim C9: order preservation end to end -/

theorem trackA_step (p : ParamsA) (t : Table (List String)) (s : String)
    (d : JSVal) (h : (trackA p t (some s) d).err = none) :
    ∃ v, serA d = some v
    ∧ (((trackA p t (some s) d).sends.map Prod.snd).flatten)
        ++ ((Table.lookup? (trackA p t (some s) d).table s).getD [])
      = ((Table.lookup? t s).getD []) ++ [v]
    ∧ ∀ b ∈ (trackA p t (some s) d).sends, b.1 = s := by
  obtain ⟨hs, v, hser, hnz⟩ := trackA_err_none p t s d h
  have hs' : s ≠ "" := fun hh => hs (by rw [hh]; rfl)
  refine ⟨v, hser, ?_⟩
  rw [trackA_eq_push p t s d v hs hser hnz]
  obtain ⟨heq, _, hstr⟩ := pushAndTrigger_batch p (tInit t s) s
    (((Table.lookup? t s).getD []) ++ [v]) hs' (by simp)
  exact ⟨heq, hstr⟩

/-- Claim C9: a sequence of `track` calls to one stream preserves
submission order positionally, end to end: the concatenation of all
batches handed to the transport, followed by the records still queued,
equals the serialized records in call order; every initiated send is for
that stream; and each batch is carried unchanged through every retry
attempt of its send. -/
theorem c9_order (p : ParamsA) (s : String) (t : Table (List String))
    (ds : List JSVal) (hok : (trackManyA p s t ds).2.2 = true) :
    (((trackManyA p s t ds).2.1.map Prod.snd).flatten)
        ++ ((Table.lookup? (trackManyA p s t ds).1 s).getD [])
      = ((Table.lookup? t s).getD []) ++ ds.filterMap serA
    ∧ ∀ b ∈ (trackManyA p s t ds).2.1, b.1 = s
        ∧ ∀ (jit : Nat → Fin 1000) (k t0 δ : Nat) (rs : List Response),
            ∀ a ∈ (sendLoop jit b.2 k t0 δ rs).1, a.data = b.2 := by
  induction ds generalizing t with
  | nil => simp [trackManyA]
  | cons d rest ih =>
    have hok' : (trackA p t (some s) d).err.isNone = true
        ∧ (trackManyA p s (trackA p t (some s) d).table rest).2.2 = true := by
      simpa [trackManyA, Bool.and_eq_true] using hok
    have herrnone : (trackA p t (some s) d).err = none :=
      Option.isNone_iff_eq_none.mp hok'.1
    obtain ⟨v, hser, hstep, hsends⟩ := trackA_step p t s d herrnone
    obtain ⟨ih1, ih2⟩ := ih (trackA p t (some s) d).table hok'.2
    constructor
    · show (((trackA p t (some s) d).sends
          ++ (trackManyA p s (trackA p t (some s) d).table rest).2.1).map
            Prod.snd).flatten
        ++ ((Table.lookup? (trackManyA p s (trackA p t (some s) d).table rest).1 s).getD [])
        = ((Table.lookup? t s).getD []) ++ (d :: rest).filterMap serA
      rw [List.map_append, List.flatten_append, List.append_assoc, ih1,
        ← List.append_assoc, hstep, List.filterMap_cons, hser,
        List.append_assoc]
      simp
    · intro b hb
      have hb' : b ∈ (trackA p t (some s) d).sends
          ∨ b ∈ (trackManyA p s (trackA p t (some s) d).table rest).2.1 := by
        simpa [trackManyA] using List.mem_append.mp (by simpa [trackManyA] using hb)
      rcases hb' with h1 | h2
      · exact ⟨hsends b h1,
          fun jit k t0 δ rs a ha => sendLoop_data jit b.2 rs k t0 δ a ha⟩
      · exact ⟨(ih2 b h2).1,
          fun jit k t0 δ rs a ha => sendLoop_data jit b.2 rs k t0 δ a ha⟩

/-- Witness for C9: two tracked records stay in submission order. -/
theorem c9_order_witness :
    (trackManyA (mkParamsA none none) "s" [] [JSVal.str "a", JSVal.str "b"]).2.2 = true
    ∧ ((((trackManyA (mkParamsA none none) "s" []
            [JSVal.str "a", JSVal.str "b"]).2.1.map Prod.snd).flatten)
        ++ ((Table.lookup? (trackManyA (mkParamsA none none) "s" []
              [JSVal.str "a", JSVal.str "b"]).1 "s").getD [])
      = ((Table.lookup? ([] : Table (List String)) "s").getD [])
          ++ ([JSVal.str "a", JSVal.str "b"] : List JSVal).filterMap serA
    ∧ ∀ b ∈ (trackManyA (mkParamsA none none) "s" []
          [JSVal.str "a", JSVal.str "b"]).2.1, b.1 = "s"
        ∧ ∀ (jit : Nat → Fin 1000) (k t0 δ : Nat) (rs : List Response),
            ∀ a ∈ (sendLoop jit b.2 k t0 δ rs).1, a.data = b.2) :=
  ⟨by decide,
    c9_order (mkParamsA none none) "s" [] [JSVal.str "a", JSVal.str "b"] (by decide)⟩

end Atom
